import Mathlib

/-!
Shallow embedding of the invoice-extraction pipeline of the `invoice_mvp`
repository (Python), together with theorems settling the frozen claims
about it.

Modelling conventions:
* Python floats are modelled as exact rationals (`Rat`); `round(x, 2)` is
  modelled as round-half-to-even on the rational value (`pyRound2`).
* Raw, loosely-typed provider payloads (Python dicts) are modelled by the
  JSON-like inductive `JVal`.
* Exceptions are modelled with `Except String`; the distinct Python
  exception classes only matter through the message carried.
* Human-readable issue / error messages interpolate runtime values in the
  Python source; here they are abbreviated to their fixed descriptive part
  (no claim is about message text).
* Wall-clock timing and network effects are modelled by explicit
  parameters (an elapsed-time value, outcome oracles for the external
  calls, a status oracle for the polling loop).
-/

/- Batteries marks the `Rat` arithmetic operations `@[irreducible]`, which
blocks `decide` on concrete rational computations; restore the default
reducibility so concrete witnesses evaluate. -/
set_option allowUnsafeReducibility true
attribute [semireducible] Rat.add Rat.sub Rat.mul Rat.div Rat.inv

namespace InvoiceMVP

/-- `app/core/models.py` — `InvoiceParty`: strings, default empty. -/
structure InvoiceParty where
  name : String
  rut : String
  address : String
deriving DecidableEq, Repr

/-- `app/core/models.py` — `InvoiceLineItemWithTotals`. -/
structure InvoiceLineItemWithTotals where
  rubro_code : Option String
  rubro_raw : String
  quantity : Rat
  unit_price : Rat
  subtotal : Rat
deriving DecidableEq, Repr

/-- `app/core/models.py` — `InvoiceTotals`. -/
structure InvoiceTotals where
  subtotal : Rat
  iva : Rat
  iva_rate : Rat
  total : Rat
deriving DecidableEq, Repr

/-- `app/core/models.py` — `Invoice`. -/
structure Invoice where
  provider : InvoiceParty
  buyer : InvoiceParty
  line_items : List InvoiceLineItemWithTotals
  totals : InvoiceTotals
deriving DecidableEq, Repr

/-- `app/core/models.py` — `InvoiceValidationIssue`. -/
structure InvoiceValidationIssue where
  code : String
  message : String
  field : Option String
deriving DecidableEq, Repr

/-- `app/core/models.py` — `InvoiceValidationResult`. -/
structure InvoiceValidationResult where
  is_valid : Bool
  issues : List InvoiceValidationIssue
deriving DecidableEq, Repr

/-- `app/core/models.py` — `InvoiceValidationResult` bundled with the
invoice, `ProcessedInvoice`. -/
structure ProcessedInvoice where
  invoice : Invoice
  validation : InvoiceValidationResult
deriving DecidableEq, Repr

/-- Python `round` to an integer: round half to even (banker's rounding),
on the exact rational value. -/
def roundHalfEven (q : Rat) : Int :=
  let f : Int := q.floor
  let frac : Rat := q - (f : Rat)
  if frac < 1 / 2 then f
  else if 1 / 2 < frac then f + 1
  else if f % 2 = 0 then f else f + 1

/-- Python `round(x, 2)` on the exact rational value. -/
def pyRound2 (q : Rat) : Rat :=
  ((roundHalfEven (q * 100) : Int) : Rat) / 100

/-- `validator.py` lines 18-29: the per-line loop.  For each line, an
issue `line_subtotal_mismatch` when `abs(line.subtotal -
round(quantity*unit_price, 2)) > 0.01`; `idx` is the running index of the
Python `enumerate`. -/
def lineIssues : List InvoiceLineItemWithTotals → Nat → List InvoiceValidationIssue
  | [], _ => []
  | li :: rest, idx =>
    (if |li.subtotal - pyRound2 (li.quantity * li.unit_price)| > 1 / 100 then
      [⟨"line_subtotal_mismatch", "line subtotal differs from quantity times unit price",
        some ("line_items[" ++ toString idx ++ "].subtotal")⟩]
    else []) ++ lineIssues rest (idx + 1)

/-- `validator.py` lines 18-29: `lines_subtotal`, accumulated in loop
order starting from `0.0`. -/
def sumSubtotals (lines : List InvoiceLineItemWithTotals) : Rat :=
  lines.foldl (fun acc li => acc + li.subtotal) 0

/-- `validator.py` — `validate_invoice_numeric_consistency`: the four
checks, in source order; note that the subtotal-vs-sum-of-lines check
(line 32) compares against the raw accumulated sum, unrounded, while the
other three compare against a `round(..., 2)` value. -/
def validate_invoice_numeric_consistency (inv : Invoice) : InvoiceValidationResult :=
  let lineIss := lineIssues inv.line_items 0
  let linesSubtotal := sumSubtotals inv.line_items
  let subtotalIss :=
    if |inv.totals.subtotal - linesSubtotal| > 1 / 100 then
      [⟨"subtotal_mismatch", "invoice subtotal differs from sum of line subtotals",
        some "totals.subtotal"⟩]
    else []
  let ivaIss :=
    if |inv.totals.iva - pyRound2 (inv.totals.subtotal * inv.totals.iva_rate)| > 1 / 100 then
      [⟨"iva_mismatch", "IVA differs from subtotal times iva_rate", some "totals.iva"⟩]
    else []
  let totalIss :=
    if |inv.totals.total - pyRound2 (inv.totals.subtotal + inv.totals.iva)| > 1 / 100 then
      [⟨"total_mismatch", "total differs from subtotal plus IVA", some "totals.total"⟩]
    else []
  let issues := lineIss ++ subtotalIss ++ ivaIss ++ totalIss
  ⟨issues.length == 0, issues⟩

/-- JSON-like values: the loosely-typed raw extraction payloads (Python
dicts) handed to `InvoiceProcessor._map_to_invoice`. -/
inductive JVal where
  | null
  | str (s : String)
  | num (q : Rat)
  | boolean (b : Bool)
  | arr (items : List JVal)
  | obj (fields : List (String × JVal))

/-- Association-list lookup for object fields (dict keys are unique, the
first hit is the value). -/
def lookupField : List (String × JVal) → String → Option JVal
  | [], _ => none
  | (k, v) :: rest, key => if k = key then some v else lookupField rest key

/-- Python `d.get(key)` / `key in d` on an object; `none` when the value
is not a dict or the key is absent. -/
def JVal.get? : JVal → String → Option JVal
  | .obj fields, key => lookupField fields key
  | _, _ => none

theorem JVal.get?_obj (fields : List (String × JVal)) (key : String) :
    (JVal.obj fields).get? key = lookupField fields key := rfl

/-- Pydantic `str` field with a default: absent key yields the default,
a string is taken as is, any other value is a validation error. -/
def strField (j : JVal) (key : String) (dflt : String) : Except String String :=
  match j.get? key with
  | none => .ok dflt
  | some (.str s) => .ok s
  | some _ => .error ("invalid string field " ++ key)

/-- Pydantic `Optional[str]` field defaulting to `None`. -/
def optStrField (j : JVal) (key : String) : Except String (Option String) :=
  match j.get? key with
  | none => .ok none
  | some .null => .ok none
  | some (.str s) => .ok (some s)
  | some _ => .error ("invalid optional string field " ++ key)

/-- Pydantic `int` field with a default: accepts integral numbers. -/
def intField (j : JVal) (key : String) (dflt : Int) : Except String Int :=
  match j.get? key with
  | none => .ok dflt
  | some (.num q) => if q.den = 1 then .ok q.num else .error ("invalid int field " ++ key)
  | some _ => .error ("invalid int field " ++ key)

/-- Pydantic required `float` field (`quantity: float` etc. in
`InvoiceLineItemWithTotals`): missing key or non-numeric value is a
validation error. -/
def floatFieldReq (j : JVal) (key : String) : Except String Rat :=
  match j.get? key with
  | none => .error ("missing required field " ++ key)
  | some (.num q) => .ok q
  | some (.boolean b) => .ok (if b then 1 else 0)
  | some _ => .error ("invalid float field " ++ key)

/-- Python `float(v)` on a payload value.  Numeric-string coercion
accepted by Python is not modelled; no payload in this development uses
it. -/
def pyFloat (v : JVal) : Except String Rat :=
  match v with
  | .num q => .ok q
  | .boolean b => .ok (if b then 1 else 0)
  | _ => .error "float cast failed"

/-- `app/core/models.py` — `InvoiceDocumentDetails` (string fields,
default empty). -/
structure InvoiceDocumentDetails where
  series : String
  number : String
  issue_date : String
  due_date : String
  project_number : String
  general_description : String
deriving DecidableEq, Repr

/-- `app/core/models.py` — `InvoiceFinancialSummary` (int fields,
default 0). -/
structure InvoiceFinancialSummary where
  sub_total : Int
  iva_amount : Int
  total_amount : Int
deriving DecidableEq, Repr

/-- `app/core/models.py` — `InvoiceLineItem` (nested cloud shape line
item). -/
structure InvoiceLineItem where
  item_number : Option String
  description : String
  quantity : Int
  unit_of_measure : String
  order_number : String
deriving DecidableEq, Repr

/-- `app/core/models.py` — `InvoiceExtraction`: the pydantic model the
nested cloud shape is validated against; `seller`, `buyer`,
`document_details` and `financial_summary` are required. -/
structure InvoiceExtraction where
  seller : InvoiceParty
  buyer : InvoiceParty
  document_details : InvoiceDocumentDetails
  line_items : List InvoiceLineItem
  financial_summary : InvoiceFinancialSummary
deriving DecidableEq, Repr

/-- Pydantic validation of `InvoiceParty` from a payload value (extra
keys are ignored, as in pydantic's default config). -/
def parseParty (j : JVal) : Except String InvoiceParty :=
  match j with
  | .obj _ => do
    let name ← strField j "name" ""
    let rut ← strField j "rut" ""
    let address ← strField j "address" ""
    .ok ⟨name, rut, address⟩
  | _ => .error "party is not an object"

/-- Pydantic validation of `InvoiceDocumentDetails`. -/
def parseDocumentDetails (j : JVal) : Except String InvoiceDocumentDetails :=
  match j with
  | .obj _ => do
    let series ← strField j "series" ""
    let number ← strField j "number" ""
    let issue_date ← strField j "issue_date" ""
    let due_date ← strField j "due_date" ""
    let project_number ← strField j "project_number" ""
    let general_description ← strField j "general_description" ""
    .ok ⟨series, number, issue_date, due_date, project_number, general_description⟩
  | _ => .error "document_details is not an object"

/-- Pydantic validation of `InvoiceFinancialSummary`. -/
def parseFinancialSummary (j : JVal) : Except String InvoiceFinancialSummary :=
  match j with
  | .obj _ => do
    let sub_total ← intField j "sub_total" 0
    let iva_amount ← intField j "iva_amount" 0
    let total_amount ← intField j "total_amount" 0
    .ok ⟨sub_total, iva_amount, total_amount⟩
  | _ => .error "financial_summary is not an object"

/-- Pydantic validation of a nested-shape `InvoiceLineItem`. -/
def parseInvoiceLineItem (j : JVal) : Except String InvoiceLineItem :=
  match j with
  | .obj _ => do
    let item_number ← optStrField j "item_number"
    let description ← strField j "description" ""
    let quantity ← intField j "quantity" 0
    let unit_of_measure ← strField j "unit_of_measure" ""
    let order_number ← strField j "order_number" ""
    .ok ⟨item_number, description, quantity, unit_of_measure, order_number⟩
  | _ => .error "line item is not an object"

/-- A required pydantic sub-model field. -/
def requiredField {α : Type} (j : JVal) (key : String)
    (parse : JVal → Except String α) : Except String α :=
  match j.get? key with
  | none => .error ("missing required field " ++ key)
  | some v => parse v

/-- `InvoiceExtraction(**extraction_data)` — pydantic validation of the
nested cloud shape (`orchestrator.py` line 69). -/
def parseInvoiceExtraction (j : JVal) : Except String InvoiceExtraction := do
  let seller ← requiredField j "seller" parseParty
  let buyer ← requiredField j "buyer" parseParty
  let document_details ← requiredField j "document_details" parseDocumentDetails
  let line_items ←
    match j.get? "line_items" with
    | none => pure []
    | some (.arr xs) => xs.mapM parseInvoiceLineItem
    | some _ => Except.error "line_items is not a list"
  let financial_summary ← requiredField j "financial_summary" parseFinancialSummary
  .ok ⟨seller, buyer, document_details, line_items, financial_summary⟩

/-- `orchestrator.py` lines 68-102 — the nested cloud-shape branch of
`_map_to_invoice`: buyer/seller map to the two parties (`x or ""` is the
identity on strings already defaulted to `""`), line items keep only
description and quantity with `unit_price = 0` and `subtotal = 0`, totals
come from `financial_summary` with `iva_rate = 0`. -/
def mapNested (extractionData : JVal) : Except String Invoice := do
  let extraction ← parseInvoiceExtraction extractionData
  .ok ⟨⟨extraction.seller.name, extraction.seller.rut, extraction.seller.address⟩,
    ⟨extraction.buyer.name, extraction.buyer.rut, extraction.buyer.address⟩,
    extraction.line_items.map (fun item => ⟨none, item.description, (item.quantity : Rat), 0, 0⟩),
    ⟨(extraction.financial_summary.sub_total : Rat), (extraction.financial_summary.iva_amount : Rat),
      0, (extraction.financial_summary.total_amount : Rat)⟩⟩

/-- `InvoiceLineItemWithTotals(**li)` — pydantic validation of a
flat-shape line item (`orchestrator.py` line 123): `rubro_raw`,
`quantity`, `unit_price`, `subtotal` are required. -/
def mapFlatLineItem (v : JVal) : Except String InvoiceLineItemWithTotals :=
  match v with
  | .obj _ => do
    let rubro_code ← optStrField v "rubro_code"
    let rubro_raw ←
      match v.get? "rubro_raw" with
      | none => Except.error "missing required field rubro_raw"
      | some (.str s) => Except.ok s
      | some _ => Except.error "invalid rubro_raw"
    let quantity ← floatFieldReq v "quantity"
    let unit_price ← floatFieldReq v "unit_price"
    let subtotal ← floatFieldReq v "subtotal"
    .ok ⟨rubro_code, rubro_raw, quantity, unit_price, subtotal⟩
  | _ => .error "line item is not an object"

/-- `orchestrator.py` lines 104-125 — the flat-shape branch of
`_map_to_invoice`: `provider` and `totals` read with defaulting (a
present but non-dict value makes the Python attribute access fail, an
absent key defaults to an empty dict), totals cast through `float`,
buyer left as the empty party. -/
def mapFlat (data : JVal) : Except String Invoice := do
  let providerData ←
    match data.get? "provider" with
    | none => pure (JVal.obj [])
    | some (JVal.obj fs) => pure (JVal.obj fs)
    | some _ => Except.error "provider is not an object"
  let totalsData ←
    match data.get? "totals" with
    | none => pure (JVal.obj [])
    | some (JVal.obj fs) => pure (JVal.obj fs)
    | some _ => Except.error "totals is not an object"
  let lineItemsData ←
    match data.get? "line_items" with
    | none => pure []
    | some (JVal.arr xs) => pure xs
    | some _ => Except.error "line_items is not a list"
  let name ← strField providerData "name" ""
  let rut ← strField providerData "rut" ""
  let address ← strField providerData "address" ""
  let subtotal ← pyFloat ((totalsData.get? "subtotal").getD (.num 0))
  let iva ← pyFloat ((totalsData.get? "iva").getD (.num 0))
  let iva_rate ← pyFloat ((totalsData.get? "iva_rate").getD (.num 0))
  let total ← pyFloat ((totalsData.get? "total").getD (.num 0))
  let items ← lineItemsData.mapM mapFlatLineItem
  .ok ⟨⟨name, rut, address⟩, ⟨"", "", ""⟩, items, ⟨subtotal, iva, iva_rate, total⟩⟩

/-- Whether `needle` occurs at the start of `haystack` (character
lists). -/
def charsBeginWith : List Char → List Char → Bool
  | [], _ => true
  | _ :: _, [] => false
  | a :: as, b :: bs => a == b && charsBeginWith as bs

/-- Whether `needle` occurs somewhere in `haystack` (character lists). -/
def charsInfixOf : List Char → List Char → Bool
  | needle, [] => needle.isEmpty
  | needle, h :: t => charsBeginWith needle (h :: t) || charsInfixOf needle t

/-- Python's `key in container` for a string key: key test on a dict,
substring test on a string, equality membership on a list (a string is
never `==` to a non-string element), and `TypeError` on every
non-container value (`None`, numbers, booleans). -/
def pyContains (container : JVal) (key : String) : Except String Bool :=
  match container with
  | .obj fields => .ok (lookupField fields key).isSome
  | .str s => .ok (charsInfixOf key.data s.data)
  | .arr xs => .ok (xs.any (fun v =>
      match v with
      | .str s => s == key
      | _ => false))
  | _ => .error "TypeError: argument is not iterable"

/-- `orchestrator.py` — `InvoiceProcessor._map_to_invoice`: the nested
cloud branch is taken iff `"data" in data and "seller" in data["data"]
and "buyer" in data["data"]` evaluates truthy; `and` short-circuits, a
`TypeError` from either inner membership test (non-container
`data["data"]`) propagates, and everything that evaluates falsy goes
through the flat branch. -/
def _map_to_invoice (data : JVal) : Except String Invoice :=
  match data.get? "data" with
  | some d =>
    match pyContains d "seller" with
    | .error e => .error e
    | .ok hs =>
      if hs then
        match pyContains d "buyer" with
        | .error e => .error e
        | .ok hb => if hb then mapNested d else mapFlat data
      else mapFlat data
  | none => mapFlat data

/-- `extractors/base.py` — `ExtractionMetrics` (confidence: optional
mapping label to float). -/
structure ExtractionMetrics where
  provider : String
  processing_time : Rat
  success : Bool
  confidence : Option (List (String × Rat))
  error_message : Option String
deriving DecidableEq, Repr

/-- `extractors/base.py` lines 48-79 —
`InvoiceExtractor.extract_with_metrics`.  The underlying `extract` call
is modelled by its `outcome`; `elapsed` models the wall-clock duration
measured around it, `confidenceOf` the subclass `_extract_confidence`
hook.  On success the metrics record accompanies the result; on failure
the source constructs a `success=False` record into the local variable
`metrics` and then runs `raise e` — the record is dropped and the
exception alone propagates (mirrored by the unused let-binding). -/
def extract_with_metrics (provider_name : String)
    (confidenceOf : JVal → Option (List (String × Rat)))
    (elapsed : Rat) (outcome : Except String JVal) :
    Except String (JVal × ExtractionMetrics) :=
  match outcome with
  | .ok result => .ok (result, ⟨provider_name, elapsed, true, confidenceOf result, none⟩)
  | .error e =>
    let _failureMetrics : ExtractionMetrics := ⟨provider_name, elapsed, false, none, some e⟩
    .error e

/-- Python `str.lower()`, modelled as per-character lowercasing (kept
executable; `String.toLower` is the same per-character map). -/
def pyLower (s : String) : String := String.mk (s.data.map Char.toLower)

/-- `app/core/models.py` — `RubroNomenclatorEntry`. -/
structure RubroNomenclatorEntry where
  code : String
  name : String
deriving DecidableEq, Repr

/-- Association-list lookup, modelling Python `dict.get`. -/
def assocGet {α : Type} : List (String × α) → String → Option α
  | [], _ => none
  | (k, v) :: rest, key => if k = key then some v else assocGet rest key

/-- `rubro_normalizer.py` — `RubroNomenclator`: two lookup indices (by
exact code, by lowercased exact name). -/
structure RubroNomenclator where
  by_code : List (String × RubroNomenclatorEntry)
  by_name : List (String × RubroNomenclatorEntry)

/-- `rubro_normalizer.py` lines 39-41 — `RubroNomenclator.normalize`:
exact match by lowercased name. -/
def RubroNomenclator.normalize (n : RubroNomenclator) (rubro_raw : String) :
    Option RubroNomenclatorEntry :=
  assocGet n.by_name (pyLower rubro_raw)

/-- `app/core/models.py` — `RubroNormalizationResult`. -/
structure RubroNormalizationResult where
  line_index : Nat
  original_rubro : String
  normalized_code : Option String
  normalized_name : Option String
deriving DecidableEq, Repr

/-- `rubro_normalizer.py` lines 54-68 — the `enumerate` loop of
`normalize_lines`; `idx` is the running index.  The service's optional
nomenclator is the `Option` argument. -/
def normalizeLinesGo (nomenclator : Option RubroNomenclator) (idx : Nat) :
    List String → List RubroNormalizationResult
  | [] => []
  | rubro_raw :: rest =>
    let entry := nomenclator.bind (fun n => n.normalize rubro_raw)
    ⟨idx, rubro_raw, entry.map (fun e => e.code), entry.map (fun e => e.name)⟩ ::
      normalizeLinesGo nomenclator (idx + 1) rest

/-- `rubro_normalizer.py` — `RubroNormalizerService.normalize_lines`. -/
def normalize_lines (nomenclator : Option RubroNomenclator) (rubros : List String) :
    List RubroNormalizationResult :=
  normalizeLinesGo nomenclator 0 rubros

/-- In-place update `invoice.line_items[i].rubro_code = code`
(`orchestrator.py` line 58). -/
def setRubroCode : List InvoiceLineItemWithTotals → Nat → String →
    List InvoiceLineItemWithTotals
  | [], _, _ => []
  | li :: rest, 0, c => ⟨some c, li.rubro_raw, li.quantity, li.unit_price, li.subtotal⟩ :: rest
  | li :: rest, n + 1, c => li :: setRubroCode rest n c

/-- `orchestrator.py` lines 52-58 — step 4, optional rubro
normalization: for each normalization result whose `normalized_code` is
truthy (non-`None`, non-empty), set that line's `rubro_code`.  The outer
`Option` is the orchestrator's optional normalizer service, the inner
one the service's optional nomenclator. -/
def normStep (inv : Invoice) (res : RubroNormalizationResult) : Invoice :=
  match res.normalized_code with
  | some c =>
    if c = "" then inv
    else ⟨inv.provider, inv.buyer, setRubroCode inv.line_items res.line_index c, inv.totals⟩
  | none => inv

/-- Step 4 over the whole result list, folding `normStep` in order. -/
def applyNormalization (svc : Option (Option RubroNomenclator)) (invoice : Invoice) : Invoice :=
  match svc with
  | none => invoice
  | some nomenclator =>
    let results := normalize_lines nomenclator (invoice.line_items.map (fun li => li.rubro_raw))
    results.foldl normStep invoice

/-- The collaborator outcomes and configuration a single
`InvoiceProcessor.process_invoice_file` run depends on. -/
structure PipelineEnv where
  ocrOutcome : Except String String
  extractOutcome : String → Except String JVal
  provider_name : String
  confidenceOf : JVal → Option (List (String × Rat))
  elapsed : Rat
  rubro_normalizer : Option (Option RubroNomenclator)

/-- `orchestrator.py` lines 37-63 — `InvoiceProcessor.process_invoice_file`:
OCR, extraction with metrics, `metrics_collector.record_extraction`
(modelled as appending to the `sink` list), mapping, optional
normalization, validation.  Returns the outcome and the final sink
contents.  Note the metrics record is appended only after
`extract_with_metrics` returned successfully: an extraction failure
aborts before line 46 runs. -/
def process_invoice_file (env : PipelineEnv) (sink : List (ExtractionMetrics × String))
    (filename : String) :
    Except String ProcessedInvoice × List (ExtractionMetrics × String) :=
  match env.ocrOutcome with
  | .error e => (.error e, sink)
  | .ok ocr_text =>
    match extract_with_metrics env.provider_name env.confidenceOf env.elapsed
        (env.extractOutcome ocr_text) with
    | .error e => (.error e, sink)
    | .ok (llm_result, extraction_metrics) =>
      let sink2 := sink ++ [(extraction_metrics, filename)]
      match _map_to_invoice llm_result with
      | .error e => (.error e, sink2)
      | .ok invoice =>
        let invoice2 := applyNormalization env.rubro_normalizer invoice
        let validation := validate_invoice_numeric_consistency invoice2
        (.ok ⟨invoice2, validation⟩, sink2)

/-- `extractors/ocr_extractor.py` lines 20-28 —
`OCRInvoiceExtractor.extract`: `if not ocr_text: raise ValueError(...)`
rejects both `None` and the empty string; otherwise the regex-heuristic
body (lines 30-51, abstracted here as the `body` parameter since no
claim depends on its content) produces the payload. -/
def ocrExtract (body : String → JVal) (ocr_text : Option String) : Except String JVal :=
  match ocr_text with
  | none => .error "OCR extractor requires OCR text"
  | some t =>
    if t = "" then .error "OCR extractor requires OCR text"
    else .ok (body t)

/-- The process environment (`os.getenv`). -/
def Env : Type := String → Option String

/-- Python truthiness of `os.getenv(key)`: set and non-empty. -/
def envTruthy (env : Env) (key : String) : Bool :=
  match env key with
  | some v => v != ""
  | none => false

/-- The four concrete extractor classes of the provider table in
`smart_extractor.py` lines 43-48. -/
inductive ExtractorKind where
  | llama
  | openai
  | ocr
  | mock
deriving DecidableEq, Repr

/-- `extractors/llama_extractor.py` lines 17-20 —
`LlamaInvoiceExtractor.__init__` requires `LLAMA_API_KEY`. -/
def llamaInit (env : Env) : Except String ExtractorKind :=
  if envTruthy env "LLAMA_API_KEY" then .ok .llama
  else .error "LLAMA_API_KEY environment variable is not set"

/-- `extractors/openai_extractor.py` lines 18-20 —
`OpenAIInvoiceExtractor.__init__` requires `OPENAI_API_KEY`. -/
def openaiInit (env : Env) : Except String ExtractorKind :=
  if envTruthy env "OPENAI_API_KEY" then .ok .openai
  else .error "OPENAI_API_KEY environment variable is not set"

/-- `smart_extractor.py` lines 40-53 —
`SmartExtractorFactory._create_specific`: the fixed provider table
{llama, openai, ocr, mock}; an unknown name raises `ValueError`.  The
OCR and mock constructors take nothing from the environment. -/
def _create_specific (env : Env) (provider : String) : Except String ExtractorKind :=
  if provider = "llama" then llamaInit env
  else if provider = "openai" then openaiInit env
  else if provider = "ocr" then .ok .ocr
  else if provider = "mock" then .ok .mock
  else .error ("Unknown provider: " ++ provider)

/-- `smart_extractor.py` lines 55-67 — `SmartExtractorFactory._auto_detect`. -/
def _auto_detect (env : Env) : Except String ExtractorKind :=
  if envTruthy env "LLAMA_API_KEY" then llamaInit env
  else if envTruthy env "OPENAI_API_KEY" then openaiInit env
  else .ok .ocr

/-- `smart_extractor.py` lines 17-38 —
`SmartExtractorFactory.create_extractor`: an explicit truthy provider
name goes through `_create_specific`, else auto-detection, else the
default `llama`. -/
def create_extractor (env : Env) (provider : Option String) (auto_detect : Bool) :
    Except String ExtractorKind :=
  match provider with
  | some p =>
    if p = "" then
      if auto_detect then _auto_detect env else _create_specific env "llama"
    else _create_specific env p
  | none => if auto_detect then _auto_detect env else _create_specific env "llama"

/-- `smart_extractor.py` lines 69-83 —
`SmartExtractorFactory.get_available_providers`: llama/openai only with
credentials, OCR and mock always. -/
def get_available_providers (env : Env) : List String :=
  (if envTruthy env "LLAMA_API_KEY" then ["llama"] else []) ++
    (if envTruthy env "OPENAI_API_KEY" then ["openai"] else []) ++
    ["ocr", "mock"]

/-- `llama_extractor.py` line 195: `job_status in {"completed", "SUCCESS"}`. -/
def isDoneStatus (s : String) : Bool :=
  s == "completed" || s == "SUCCESS"

/-- `llama_extractor.py` line 211: `job_status in {"failed", "cancelled"}`. -/
def isFailedStatus (s : String) : Bool :=
  s == "failed" || s == "cancelled"

/-- Outcome of the polling phase of `LlamaInvoiceExtractor.extract`:
either the result fetch after a done status, or the `RuntimeError` for a
failed/cancelled job, or the `RuntimeError` for the 180 s timeout.
`polls` counts status requests issued, `waited` the seconds slept so
far. -/
inductive PollOutcome where
  | success (polls : Nat) (waited : Nat)
  | jobFailed (polls : Nat) (waited : Nat)
  | timedOut (polls : Nat) (waited : Nat)
deriving DecidableEq, Repr

/-- `llama_extractor.py` lines 182-217 — the polling loop:
`max_wait = 180`, `interval = 3`, `while waited < max_wait` polls the
job status, returns on a done status, raises on failed/cancelled, else
sleeps 3 s and adds 3 to `waited`; falling out of the loop raises the
timeout error.  `status n` is the status string the n-th poll (0-based)
observes. -/
def pollLoop (status : Nat → String) (waited polls : Nat) : PollOutcome :=
  if waited < 180 then
    if isDoneStatus (status polls) then .success (polls + 1) waited
    else if isFailedStatus (status polls) then .jobFailed (polls + 1) waited
    else pollLoop status (waited + 3) (polls + 1)
  else .timedOut polls waited
termination_by 180 - waited
decreasing_by omega

/-- The polling phase as entered by `extract` (`waited = 0`, no polls
yet). -/
def llamaPollPhase (status : Nat → String) : PollOutcome :=
  pollLoop status 0 0

/-- The shape test of `orchestrator.py` line 67 in isolation:
`"data" in data and "seller" in data["data"] and "buyer" in
data["data"]`, with Python's short-circuit `and` and a possible
`TypeError` from the membership tests on a non-container
`data["data"]`. -/
def nestedShape (data : JVal) : Except String Bool :=
  match data.get? "data" with
  | some d =>
    match pyContains d "seller" with
    | .error e => .error e
    | .ok hs => if hs then pyContains d "buyer" else .ok false
  | none => .ok false

/-- The validator's per-line relation within tolerance: line `subtotal`
within 0.01 of `round(quantity * unit_price, 2)`. -/
def lineOk (li : InvoiceLineItemWithTotals) : Prop :=
  |li.subtotal - pyRound2 (li.quantity * li.unit_price)| ≤ 1 / 100

/-- Totals `subtotal` within 0.01 of the (unrounded) sum of line
subtotals. -/
def subtotalOk (inv : Invoice) : Prop :=
  |inv.totals.subtotal - sumSubtotals inv.line_items| ≤ 1 / 100

/-- Totals `iva` within 0.01 of `round(subtotal * iva_rate, 2)`. -/
def ivaOk (inv : Invoice) : Prop :=
  |inv.totals.iva - pyRound2 (inv.totals.subtotal * inv.totals.iva_rate)| ≤ 1 / 100

/-- Totals `total` within 0.01 of `round(subtotal + iva, 2)`. -/
def totalOk (inv : Invoice) : Prop :=
  |inv.totals.total - pyRound2 (inv.totals.subtotal + inv.totals.iva)| ≤ 1 / 100

instance (li : InvoiceLineItemWithTotals) : Decidable (lineOk li) := by
  unfold lineOk; infer_instance

instance (inv : Invoice) : Decidable (subtotalOk inv) := by
  unfold subtotalOk; infer_instance

instance (inv : Invoice) : Decidable (ivaOk inv) := by
  unfold ivaOk; infer_instance

instance (inv : Invoice) : Decidable (totalOk inv) := by
  unfold totalOk; infer_instance

/-- A terminal job status: one the polling loop stops on. -/
def isTerminalStatus (s : String) : Bool :=
  isDoneStatus s || isFailedStatus s

theorem validate_issues_eq (inv : Invoice) :
    (validate_invoice_numeric_consistency inv).issues =
      lineIssues inv.line_items 0 ++
        (if |inv.totals.subtotal - sumSubtotals inv.line_items| > 1 / 100 then
          [⟨"subtotal_mismatch", "invoice subtotal differs from sum of line subtotals",
            some "totals.subtotal"⟩]
        else []) ++
        (if |inv.totals.iva - pyRound2 (inv.totals.subtotal * inv.totals.iva_rate)| > 1 / 100 then
          [⟨"iva_mismatch", "IVA differs from subtotal times iva_rate", some "totals.iva"⟩]
        else []) ++
        (if |inv.totals.total - pyRound2 (inv.totals.subtotal + inv.totals.iva)| > 1 / 100 then
          [⟨"total_mismatch", "total differs from subtotal plus IVA", some "totals.total"⟩]
        else []) := by
  simp only [validate_invoice_numeric_consistency, List.append_assoc]

theorem validate_is_valid_eq (inv : Invoice) :
    (validate_invoice_numeric_consistency inv).is_valid =
      ((validate_invoice_numeric_consistency inv).issues.length == 0) := rfl

theorem lineIssues_nil_of_ok {lines : List InvoiceLineItemWithTotals} (idx : Nat)
    (h : ∀ li ∈ lines, lineOk li) : lineIssues lines idx = [] := by
  induction lines generalizing idx with
  | nil => rfl
  | cons li rest ih =>
    have hli : lineOk li := h li (List.mem_cons_self li rest)
    simp only [lineIssues, if_neg (not_lt.mpr hli), List.nil_append]
    exact ih (idx + 1) (fun l hl => h l (List.mem_cons_of_mem li hl))

theorem lineIssues_append (xs ys : List InvoiceLineItemWithTotals) (idx : Nat) :
    lineIssues (xs ++ ys) idx = lineIssues xs idx ++ lineIssues ys (idx + xs.length) := by
  induction xs generalizing idx with
  | nil => simp [lineIssues]
  | cons li rest ih =>
    simp only [List.cons_append, lineIssues, List.length_cons, List.append_eq]
    rw [ih (idx + 1), List.append_assoc]
    have h : idx + 1 + rest.length = idx + (rest.length + 1) := by omega
    rw [h]

theorem lineIssues_single_bad {li : InvoiceLineItemWithTotals} (idx : Nat)
    (h : ¬ lineOk li) :
    lineIssues [li] idx =
      [⟨"line_subtotal_mismatch", "line subtotal differs from quantity times unit price",
        some ("line_items[" ++ toString idx ++ "].subtotal")⟩] := by
  simp only [lineIssues, if_pos (lt_of_not_le h)]
  rfl

theorem code_of_mem_lineIssues {lines : List InvoiceLineItemWithTotals} {idx : Nat}
    {i : InvoiceValidationIssue} (h : i ∈ lineIssues lines idx) :
    i.code = "line_subtotal_mismatch" := by
  induction lines generalizing idx with
  | nil => cases h
  | cons li rest ih =>
    simp only [lineIssues] at h
    rcases List.mem_append.mp h with h1 | h2
    · by_cases hc : |li.subtotal - pyRound2 (li.quantity * li.unit_price)| > 1 / 100
      · rw [if_pos hc] at h1
        rcases List.mem_singleton.mp h1 with rfl
        rfl
      · rw [if_neg hc] at h1
        cases h1
    · exact ih h2

theorem mem_lineIssues_iff (lines : List InvoiceLineItemWithTotals) (idx : Nat) :
    "line_subtotal_mismatch" ∈ (lineIssues lines idx).map (fun i => i.code) ↔
      ∃ li ∈ lines, ¬ lineOk li := by
  induction lines generalizing idx with
  | nil => simp [lineIssues]
  | cons li rest ih =>
    simp only [lineIssues, List.map_append, List.mem_append]
    constructor
    · rintro (h1 | h2)
      · by_cases hc : |li.subtotal - pyRound2 (li.quantity * li.unit_price)| > 1 / 100
        · exact ⟨li, List.mem_cons_self li rest, not_le.mpr hc⟩
        · rw [if_neg hc] at h1
          cases h1
      · obtain ⟨l, hl, hbad⟩ := (ih (idx + 1)).mp h2
        exact ⟨l, List.mem_cons_of_mem li hl, hbad⟩
    · rintro ⟨l, hl, hbad⟩
      rcases List.mem_cons.mp hl with rfl | hl2
      · left
        rw [if_pos (lt_of_not_le hbad)]
        simp
      · right
        exact (ih (idx + 1)).mpr ⟨l, hl2, hbad⟩

theorem foldl_add_subtotal (a : Rat) (lines : List InvoiceLineItemWithTotals) :
    List.foldl (fun acc li => acc + li.subtotal) a lines =
      a + (lines.map (fun li => li.subtotal)).sum := by
  induction lines generalizing a with
  | nil => simp
  | cons li rest ih =>
    simp only [List.foldl_cons, List.map_cons, List.sum_cons, ih]
    ring

theorem sumSubtotals_eq_sum (lines : List InvoiceLineItemWithTotals) :
    sumSubtotals lines = (lines.map (fun li => li.subtotal)).sum := by
  simp [sumSubtotals, foldl_add_subtotal]

theorem validate_eta (inv : Invoice) :
    validate_invoice_numeric_consistency inv =
      ⟨(validate_invoice_numeric_consistency inv).issues.length == 0,
        (validate_invoice_numeric_consistency inv).issues⟩ := rfl

/-- C3: an invoice satisfying all four numeric relations within
tolerance validates with `is_valid = true` and zero issues, and an
invoice violating exactly one of the relations (for the per-line
relation: exactly one line) yields exactly one issue bearing the
corresponding code. -/
theorem C3_validator_issue_characterization (inv : Invoice) :
    ((∀ li ∈ inv.line_items, lineOk li) ∧ subtotalOk inv ∧ ivaOk inv ∧ totalOk inv →
      validate_invoice_numeric_consistency inv = ⟨true, []⟩) ∧
    (∀ xs li ys, inv.line_items = xs ++ li :: ys →
      (∀ l ∈ xs, lineOk l) → ¬ lineOk li → (∀ l ∈ ys, lineOk l) →
      subtotalOk inv → ivaOk inv → totalOk inv →
      (validate_invoice_numeric_consistency inv).issues.map (fun i => i.code) =
        ["line_subtotal_mismatch"]) ∧
    ((∀ li ∈ inv.line_items, lineOk li) → ¬ subtotalOk inv → ivaOk inv → totalOk inv →
      (validate_invoice_numeric_consistency inv).issues.map (fun i => i.code) =
        ["subtotal_mismatch"]) ∧
    ((∀ li ∈ inv.line_items, lineOk li) → subtotalOk inv → ¬ ivaOk inv → totalOk inv →
      (validate_invoice_numeric_consistency inv).issues.map (fun i => i.code) =
        ["iva_mismatch"]) ∧
    ((∀ li ∈ inv.line_items, lineOk li) → subtotalOk inv → ivaOk inv → ¬ totalOk inv →
      (validate_invoice_numeric_consistency inv).issues.map (fun i => i.code) =
        ["total_mismatch"]) := by
  refine ⟨?_, ?_, ?_, ?_, ?_⟩
  · rintro ⟨h1, h2, h3, h4⟩
    have hiss : (validate_invoice_numeric_consistency inv).issues = [] := by
      rw [validate_issues_eq, lineIssues_nil_of_ok 0 h1, if_neg (not_lt.mpr h2),
        if_neg (not_lt.mpr h3), if_neg (not_lt.mpr h4)]
      rfl
    rw [validate_eta, hiss]
    rfl
  · intro xs li ys hsplit hxs hbad hys h2 h3 h4
    have hl : lineIssues inv.line_items 0 =
        [⟨"line_subtotal_mismatch", "line subtotal differs from quantity times unit price",
          some ("line_items[" ++ toString (0 + xs.length) ++ "].subtotal")⟩] := by
      rw [hsplit, lineIssues_append, lineIssues_nil_of_ok 0 hxs]
      simp only [lineIssues, if_pos (lt_of_not_le hbad),
        lineIssues_nil_of_ok (0 + xs.length + 1) hys, List.nil_append, List.append_nil]
    rw [validate_issues_eq, hl, if_neg (not_lt.mpr h2), if_neg (not_lt.mpr h3),
      if_neg (not_lt.mpr h4)]
    rfl
  · intro h1 h2 h3 h4
    rw [validate_issues_eq, lineIssues_nil_of_ok 0 h1, if_pos (not_le.mp h2),
      if_neg (not_lt.mpr h3), if_neg (not_lt.mpr h4)]
    rfl
  · intro h1 h2 h3 h4
    rw [validate_issues_eq, lineIssues_nil_of_ok 0 h1, if_neg (not_lt.mpr h2),
      if_pos (not_le.mp h3), if_neg (not_lt.mpr h4)]
    rfl
  · intro h1 h2 h3 h4
    rw [validate_issues_eq, lineIssues_nil_of_ok 0 h1, if_neg (not_lt.mpr h2),
      if_neg (not_lt.mpr h3), if_pos (not_le.mp h4)]
    rfl

/-- Witness for C3 at concrete invoices: the all-consistent scenario
invoice and four invoices each violating exactly one relation. -/
theorem C3_validator_issue_characterization_witness :
    validate_invoice_numeric_consistency
      ⟨⟨"Acme", "1-9", ""⟩, ⟨"", "", ""⟩, [⟨none, "Consulting", 10, 100, 1000⟩],
        ⟨1000, 190, 19 / 100, 1190⟩⟩ = ⟨true, []⟩ ∧
    (validate_invoice_numeric_consistency
      ⟨⟨"", "", ""⟩, ⟨"", "", ""⟩, [⟨none, "x", 10, 100, 900⟩],
        ⟨900, 0, 0, 900⟩⟩).issues.map (fun i => i.code) = ["line_subtotal_mismatch"] ∧
    (validate_invoice_numeric_consistency
      ⟨⟨"", "", ""⟩, ⟨"", "", ""⟩, [⟨none, "x", 1, 100, 100⟩],
        ⟨200, 0, 0, 200⟩⟩).issues.map (fun i => i.code) = ["subtotal_mismatch"] ∧
    (validate_invoice_numeric_consistency
      ⟨⟨"", "", ""⟩, ⟨"", "", ""⟩, [⟨none, "x", 1, 100, 100⟩],
        ⟨100, 50, 0, 150⟩⟩).issues.map (fun i => i.code) = ["iva_mismatch"] ∧
    (validate_invoice_numeric_consistency
      ⟨⟨"", "", ""⟩, ⟨"", "", ""⟩, [⟨none, "x", 1, 100, 100⟩],
        ⟨100, 19, 19 / 100, 150⟩⟩).issues.map (fun i => i.code) = ["total_mismatch"] := by
  refine ⟨?_, ?_, ?_, ?_, ?_⟩
  · exact (C3_validator_issue_characterization _).1
      ⟨by intro li h; fin_cases h <;> decide, by decide, by decide, by decide⟩
  · exact (C3_validator_issue_characterization _).2.1 [] ⟨none, "x", 10, 100, 900⟩ [] rfl
      (by intro l h; cases h) (by decide) (by intro l h; cases h)
      (by decide) (by decide) (by decide)
  · exact (C3_validator_issue_characterization _).2.2.1
      (by intro li h; fin_cases h <;> decide) (by decide) (by decide) (by decide)
  · exact (C3_validator_issue_characterization _).2.2.2.1
      (by intro li h; fin_cases h <;> decide) (by decide) (by decide) (by decide)
  · exact (C3_validator_issue_characterization _).2.2.2.2
      (by intro li h; fin_cases h <;> decide) (by decide) (by decide) (by decide)

/-- C4 counterexample: a concrete invoice on which the code raises
`subtotal_mismatch` although `totals.subtotal` is within 0.01 of the
*rounded* sum of line subtotals — so the subtotal-vs-sum check does
*not* round its expected value before comparing, contradicting the
claim that all four checks do. -/
theorem C4_counterexample :
    (validate_invoice_numeric_consistency
      ⟨⟨"", "", ""⟩, ⟨"", "", ""⟩, [⟨none, "x", 1, 10016 / 1000, 10016 / 1000⟩],
        ⟨1003 / 100, 0, 0, 1003 / 100⟩⟩).issues.map (fun i => i.code) = ["subtotal_mismatch"] ∧
    |(1003 / 100 : Rat) -
        pyRound2 (sumSubtotals [⟨none, "x", 1, 10016 / 1000, 10016 / 1000⟩])| ≤ 1 / 100 := by
  constructor
  · decide
  · decide

/-- C4 as amended: of the validator's four checks, the line, IVA and
total checks compare against an expected value rounded to 2 decimals
(tolerance 0.01 absolute), while the subtotal check compares
`totals.subtotal` against the raw, unrounded sum of the line subtotals
(tolerance 0.01 absolute).  Stated as an exact characterization of
which issue codes the validator emits. -/
theorem C4_amended_rounding_characterization (inv : Invoice) :
    ("subtotal_mismatch" ∈
        (validate_invoice_numeric_consistency inv).issues.map (fun i => i.code) ↔
      |inv.totals.subtotal - sumSubtotals inv.line_items| > 1 / 100) ∧
    ("iva_mismatch" ∈
        (validate_invoice_numeric_consistency inv).issues.map (fun i => i.code) ↔
      |inv.totals.iva - pyRound2 (inv.totals.subtotal * inv.totals.iva_rate)| > 1 / 100) ∧
    ("total_mismatch" ∈
        (validate_invoice_numeric_consistency inv).issues.map (fun i => i.code) ↔
      |inv.totals.total - pyRound2 (inv.totals.subtotal + inv.totals.iva)| > 1 / 100) ∧
    ("line_subtotal_mismatch" ∈
        (validate_invoice_numeric_consistency inv).issues.map (fun i => i.code) ↔
      ∃ li ∈ inv.line_items,
        ¬ |li.subtotal - pyRound2 (li.quantity * li.unit_price)| ≤ 1 / 100) := by
  have hline : ∀ c ∈ (lineIssues inv.line_items 0).map (fun i => i.code),
      c = "line_subtotal_mismatch" := by
    intro c hc
    obtain ⟨i, hi, rfl⟩ := List.mem_map.mp hc
    exact code_of_mem_lineIssues hi
  rw [validate_issues_eq]
  refine ⟨?_, ?_, ?_, ?_⟩
  · simp only [List.map_append, List.mem_append]
    constructor
    · rintro (((h | h) | h) | h)
      · exact absurd (hline _ h) (by decide)
      · by_cases hc : |inv.totals.subtotal - sumSubtotals inv.line_items| > 1 / 100
        · exact hc
        · rw [if_neg hc] at h
          cases h
      · split at h <;> simp_all
      · split at h <;> simp_all
    · intro hc
      left; left; right
      rw [if_pos hc]
      simp
  · simp only [List.map_append, List.mem_append]
    constructor
    · rintro (((h | h) | h) | h)
      · exact absurd (hline _ h) (by decide)
      · split at h <;> simp_all
      · by_cases hc :
          |inv.totals.iva - pyRound2 (inv.totals.subtotal * inv.totals.iva_rate)| > 1 / 100
        · exact hc
        · rw [if_neg hc] at h
          cases h
      · split at h <;> simp_all
    · intro hc
      left; right
      rw [if_pos hc]
      simp
  · simp only [List.map_append, List.mem_append]
    constructor
    · rintro (((h | h) | h) | h)
      · exact absurd (hline _ h) (by decide)
      · split at h <;> simp_all
      · split at h <;> simp_all
      · by_cases hc :
          |inv.totals.total - pyRound2 (inv.totals.subtotal + inv.totals.iva)| > 1 / 100
        · exact hc
        · rw [if_neg hc] at h
          cases h
    · intro hc
      right
      rw [if_pos hc]
      simp
  · simp only [List.map_append, List.mem_append]
    constructor
    · rintro (((h | h) | h) | h)
      · obtain ⟨li, hli, hbad⟩ := (mem_lineIssues_iff inv.line_items 0).mp h
        exact ⟨li, hli, hbad⟩
      · split at h <;> simp_all
      · split at h <;> simp_all
      · split at h <;> simp_all
    · rintro ⟨li, hli, hbad⟩
      left; left; left
      exact (mem_lineIssues_iff inv.line_items 0).mpr ⟨li, hli, hbad⟩

theorem setRubroCode_preserves (lines : List InvoiceLineItemWithTotals) (i : Nat) (c : String) :
    (setRubroCode lines i c).map (fun li => (li.rubro_raw, li.quantity, li.unit_price, li.subtotal)) =
      lines.map (fun li => (li.rubro_raw, li.quantity, li.unit_price, li.subtotal)) := by
  induction lines generalizing i with
  | nil => rfl
  | cons li rest ih =>
    cases i with
    | zero => simp [setRubroCode]
    | succ n => simp [setRubroCode, ih n]

theorem normStep_preserves (inv : Invoice) (res : RubroNormalizationResult) :
    (normStep inv res).provider = inv.provider ∧
    (normStep inv res).buyer = inv.buyer ∧
    (normStep inv res).totals = inv.totals ∧
    (normStep inv res).line_items.map
        (fun li => (li.rubro_raw, li.quantity, li.unit_price, li.subtotal)) =
      inv.line_items.map (fun li => (li.rubro_raw, li.quantity, li.unit_price, li.subtotal)) := by
  rcases h : res.normalized_code with _ | c
  · simp [normStep, h]
  · by_cases hc : c = ""
    · simp [normStep, h, hc]
    · simp only [normStep, h]
      rw [if_neg hc]
      exact ⟨rfl, rfl, rfl, setRubroCode_preserves inv.line_items res.line_index c⟩

theorem foldl_normStep_preserves (rs : List RubroNormalizationResult) (inv : Invoice) :
    (rs.foldl normStep inv).provider = inv.provider ∧
    (rs.foldl normStep inv).buyer = inv.buyer ∧
    (rs.foldl normStep inv).totals = inv.totals ∧
    (rs.foldl normStep inv).line_items.map
        (fun li => (li.rubro_raw, li.quantity, li.unit_price, li.subtotal)) =
      inv.line_items.map (fun li => (li.rubro_raw, li.quantity, li.unit_price, li.subtotal)) := by
  induction rs generalizing inv with
  | nil => exact ⟨rfl, rfl, rfl, rfl⟩
  | cons r rest ih =>
    obtain ⟨h1, h2, h3, h4⟩ := ih (normStep inv r)
    obtain ⟨g1, g2, g3, g4⟩ := normStep_preserves inv r
    exact ⟨h1.trans g1, h2.trans g2, h3.trans g3, h4.trans g4⟩

theorem applyNormalization_preserves (svc : Option (Option RubroNomenclator)) (inv : Invoice) :
    (applyNormalization svc inv).totals = inv.totals ∧
    (applyNormalization svc inv).line_items.map
        (fun li => (li.rubro_raw, li.quantity, li.unit_price, li.subtotal)) =
      inv.line_items.map (fun li => (li.rubro_raw, li.quantity, li.unit_price, li.subtotal)) := by
  match svc with
  | none => exact ⟨rfl, rfl⟩
  | some nomenclator =>
    obtain ⟨_, _, h3, h4⟩ := foldl_normStep_preserves
      (normalize_lines nomenclator (inv.line_items.map (fun li => li.rubro_raw))) inv
    exact ⟨h3, h4⟩

theorem sum_map_zero {α : Type} (l : List α) : (l.map (fun _ => (0 : Rat))).sum = 0 := by
  induction l with
  | nil => rfl
  | cons a rest ih => simp [ih]

theorem map_subtotal_of_map_quad {l1 l2 : List InvoiceLineItemWithTotals}
    (h : l1.map (fun li => (li.rubro_raw, li.quantity, li.unit_price, li.subtotal)) =
      l2.map (fun li => (li.rubro_raw, li.quantity, li.unit_price, li.subtotal))) :
    l1.map (fun li => li.subtotal) = l2.map (fun li => li.subtotal) := by
  have h2 := congrArg (List.map (fun t : String × Rat × Rat × Rat => t.2.2.2)) h
  simpa [List.map_map, Function.comp] using h2

/-- C5: every invoice produced by the nested cloud-shape branch has
`unit_price = 0` and `subtotal = 0` on all line items and
`iva_rate = 0` in its totals; the normalization stage preserves the
totals and all numeric line fields (it only fills `rubro_code`); and
whenever such an invoice's `totals.subtotal` differs from 0 by more
than 0.01, the validator flags it with a `subtotal_mismatch` issue and
`is_valid = false`. -/
theorem C5_nested_mapping_zero_prices (d dd : JVal) (inv : Invoice)
    (nom : Option (Option RubroNomenclator))
    (hdd : d.get? "data" = some dd)
    (hseller : (dd.get? "seller").isSome = true)
    (hbuyer : (dd.get? "buyer").isSome = true)
    (hmap : _map_to_invoice d = .ok inv) :
    (∀ li ∈ inv.line_items, li.unit_price = 0 ∧ li.subtotal = 0) ∧
    inv.totals.iva_rate = 0 ∧
    (applyNormalization nom inv).totals = inv.totals ∧
    ((applyNormalization nom inv).line_items.map
        (fun li => (li.rubro_raw, li.quantity, li.unit_price, li.subtotal)) =
      inv.line_items.map (fun li => (li.rubro_raw, li.quantity, li.unit_price, li.subtotal))) ∧
    (|inv.totals.subtotal| > 1 / 100 →
      (validate_invoice_numeric_consistency (applyNormalization nom inv)).is_valid = false ∧
      "subtotal_mismatch" ∈
        (validate_invoice_numeric_consistency (applyNormalization nom inv)).issues.map
          (fun i => i.code)) := by
  have hobj : ∃ fs, dd = JVal.obj fs := by
    cases dd with
    | obj fs => exact ⟨fs, rfl⟩
    | null => simp [JVal.get?] at hseller
    | str s => simp [JVal.get?] at hseller
    | num q => simp [JVal.get?] at hseller
    | boolean b => simp [JVal.get?] at hseller
    | arr xs => simp [JVal.get?] at hseller
  obtain ⟨fs, rfl⟩ := hobj
  have hs' : pyContains (JVal.obj fs) "seller" = .ok true := by
    simp only [pyContains]
    rw [← JVal.get?_obj, hseller]
  have hb' : pyContains (JVal.obj fs) "buyer" = .ok true := by
    simp only [pyContains]
    rw [← JVal.get?_obj, hbuyer]
  simp only [_map_to_invoice, hdd, hs', hb', if_true] at hmap
  rcases hparse : parseInvoiceExtraction (JVal.obj fs) with e | extraction
  · rw [mapNested, hparse] at hmap
    exact Except.noConfusion hmap
  · rw [mapNested, hparse] at hmap
    obtain rfl := Except.ok.inj hmap
    refine ⟨?_, rfl, (applyNormalization_preserves nom _).1, (applyNormalization_preserves nom _).2, ?_⟩
    · intro li hli
      obtain ⟨item, _, rfl⟩ := List.mem_map.mp hli
      exact ⟨rfl, rfl⟩
    · intro hbig
      set invN := applyNormalization nom
        (⟨⟨extraction.seller.name, extraction.seller.rut, extraction.seller.address⟩,
          ⟨extraction.buyer.name, extraction.buyer.rut, extraction.buyer.address⟩,
          extraction.line_items.map
            (fun item => ⟨none, item.description, (item.quantity : Rat), 0, 0⟩),
          ⟨(extraction.financial_summary.sub_total : Rat),
            (extraction.financial_summary.iva_amount : Rat), 0,
            (extraction.financial_summary.total_amount : Rat)⟩⟩ : Invoice) with hinvN
      obtain ⟨htot, hquad⟩ := applyNormalization_preserves nom _
      rw [← hinvN] at htot hquad
      have hsubs2 := map_subtotal_of_map_quad hquad
      have hzero : (extraction.line_items.map
          (fun item => (⟨none, item.description, (item.quantity : Rat), 0, 0⟩ :
            InvoiceLineItemWithTotals))).map (fun li => li.subtotal) =
          extraction.line_items.map (fun _ => (0 : Rat)) := by
        rw [List.map_map]
        rfl
      have hsum : sumSubtotals invN.line_items = 0 := by
        rw [sumSubtotals_eq_sum, hsubs2, hzero, sum_map_zero]
      have hcond : |invN.totals.subtotal - sumSubtotals invN.line_items| > 1 / 100 := by
        rw [hsum, sub_zero, htot]
        exact hbig
      have hmem : "subtotal_mismatch" ∈
          (validate_invoice_numeric_consistency invN).issues.map (fun i => i.code) := by
        rw [validate_issues_eq, if_pos hcond]
        simp
      refine ⟨?_, hmem⟩
      rw [validate_is_valid_eq]
      obtain ⟨i, hi, _⟩ := List.mem_map.mp hmem
      have hne : (validate_invoice_numeric_consistency invN).issues ≠ [] :=
        List.ne_nil_of_mem hi
      have hlen : (validate_invoice_numeric_consistency invN).issues.length ≠ 0 := by
        intro h0
        exact hne (List.eq_nil_of_length_eq_zero h0)
      exact beq_eq_false_iff_ne.mpr hlen

/-- Witness for C5 at a concrete nested cloud-shape payload (seller and
buyer present, `sub_total = 100`), with a normalizer whose nomenclator
matches the line description. -/
theorem C5_nested_mapping_zero_prices_witness :
    (validate_invoice_numeric_consistency
      (applyNormalization (some (some ⟨[], [("work", ⟨"001", "Work"⟩)]⟩))
        ⟨⟨"S", "1-9", ""⟩, ⟨"B", "", ""⟩, [⟨none, "Work", 2, 0, 0⟩],
          ⟨100, 19, 0, 119⟩⟩)).is_valid = false ∧
    "subtotal_mismatch" ∈
      (validate_invoice_numeric_consistency
        (applyNormalization (some (some ⟨[], [("work", ⟨"001", "Work"⟩)]⟩))
          ⟨⟨"S", "1-9", ""⟩, ⟨"B", "", ""⟩, [⟨none, "Work", 2, 0, 0⟩],
            ⟨100, 19, 0, 119⟩⟩)).issues.map (fun i => i.code) :=
  (C5_nested_mapping_zero_prices
    (.obj [("data", .obj [
      ("seller", .obj [("name", .str "S"), ("rut", .str "1-9")]),
      ("buyer", .obj [("name", .str "B")]),
      ("document_details", .obj []),
      ("line_items", .arr [.obj [("description", .str "Work"), ("quantity", .num 2)]]),
      ("financial_summary", .obj [("sub_total", .num 100), ("iva_amount", .num 19),
        ("total_amount", .num 119)])])])
    (.obj [
      ("seller", .obj [("name", .str "S"), ("rut", .str "1-9")]),
      ("buyer", .obj [("name", .str "B")]),
      ("document_details", .obj []),
      ("line_items", .arr [.obj [("description", .str "Work"), ("quantity", .num 2)]]),
      ("financial_summary", .obj [("sub_total", .num 100), ("iva_amount", .num 19),
        ("total_amount", .num 119)])])
    ⟨⟨"S", "1-9", ""⟩, ⟨"B", "", ""⟩, [⟨none, "Work", 2, 0, 0⟩], ⟨100, 19, 0, 119⟩⟩
    (some (some ⟨[], [("work", ⟨"001", "Work"⟩)]⟩))
    rfl rfl rfl rfl).2.2.2.2 (by decide)

/-- C1: the extraction-with-metrics wrapper re-raises the original
failure unchanged — but the `success=False` metrics record it builds is
discarded, and the orchestrator's `record_extraction` call (line 46) is
only reached after a successful extraction, so on a failing extraction
nothing at all is appended to the metrics sink.  Evaluated at a
concrete failing run (and, for contrast, a succeeding run that does
append one record). -/
theorem C1_failure_metrics_never_reach_sink :
    process_invoice_file
      ⟨.ok "FACTURA text", fun _ => .error "extraction failed", "tesseract_ocr",
        fun _ => none, 1 / 10, none⟩ [] "invoice.pdf" =
      (.error "extraction failed", []) ∧
    extract_with_metrics "tesseract_ocr" (fun _ => none) (1 / 10)
      (.error "extraction failed") = .error "extraction failed" ∧
    process_invoice_file
      ⟨.ok "FACTURA text", fun _ => .ok (.obj []), "tesseract_ocr",
        fun _ => none, 1 / 10, none⟩ [] "invoice.pdf" =
      (.ok ⟨⟨⟨"", "", ""⟩, ⟨"", "", ""⟩, [], ⟨0, 0, 0, 0⟩⟩, ⟨true, []⟩⟩,
        [(⟨"tesseract_ocr", 1 / 10, true, none, none⟩, "invoice.pdf")]) :=
  ⟨rfl, rfl, rfl⟩

/-- C2 counterexample: a payload of nested shape lacking `buyer` and a
payload of neither recognized shape are both mapped *successfully* into
a defaulted `Invoice` — `_map_to_invoice` raises no `MappingError` for
them, contradicting the claim that such payloads are rejected. -/
theorem C2_counterexample :
    _map_to_invoice (.obj [("data", .obj [("seller", .obj [("name", .str "S")])])]) =
      .ok ⟨⟨"", "", ""⟩, ⟨"", "", ""⟩, [], ⟨0, 0, 0, 0⟩⟩ ∧
    _map_to_invoice (.obj [("foo", .num 1)]) =
      .ok ⟨⟨"", "", ""⟩, ⟨"", "", ""⟩, [], ⟨0, 0, 0, 0⟩⟩ := ⟨rfl, rfl⟩

/-- C2 as amended: `_map_to_invoice` never rejects a payload's shape
with a `MappingError`.  Whenever the line-67 shape test evaluates
without raising and comes out false — e.g. a nested-shape payload
lacking `buyer` or `seller`, or a payload of neither recognized
shape — the payload is routed to the flat branch, and one carrying
none of the flat keys (`provider`, `totals`, `line_items`) is silently
defaulted to an `Invoice` with empty parties, no line items and zero
totals.  A payload whose `data` value is a non-container instead
propagates the membership test's own `TypeError` — again not a
`MappingError`. -/
theorem C2_amended_silent_default (fields : List (String × JVal)) :
    (nestedShape (.obj fields) = .ok false →
      lookupField fields "provider" = none →
      lookupField fields "totals" = none →
      lookupField fields "line_items" = none →
      _map_to_invoice (.obj fields) = .ok ⟨⟨"", "", ""⟩, ⟨"", "", ""⟩, [], ⟨0, 0, 0, 0⟩⟩) ∧
    (∀ (d : JVal) (e : String), lookupField fields "data" = some d →
      pyContains d "seller" = .error e →
      _map_to_invoice (.obj fields) = .error e) := by
  constructor
  · intro hns hp ht hl
    have hflat : mapFlat (.obj fields) = .ok ⟨⟨"", "", ""⟩, ⟨"", "", ""⟩, [], ⟨0, 0, 0, 0⟩⟩ := by
      simp only [mapFlat, JVal.get?_obj, hp, ht, hl]
      rfl
    rcases hdd : lookupField fields "data" with _ | d
    · simp only [_map_to_invoice, JVal.get?_obj, hdd]
      exact hflat
    · simp only [nestedShape, JVal.get?_obj, hdd] at hns
      rcases hsell : pyContains d "seller" with e | hs
      · simp only [hsell] at hns
        exact Except.noConfusion hns
      · simp only [hsell] at hns
        cases hs with
        | false =>
          simp only [_map_to_invoice, JVal.get?_obj, hdd, hsell, Bool.false_eq_true,
            if_false]
          exact hflat
        | true =>
          simp only [if_true] at hns
          simp only [_map_to_invoice, JVal.get?_obj, hdd, hsell, if_true, hns,
            Bool.false_eq_true, if_false]
          exact hflat
  · intro d e hdd herr
    simp only [_map_to_invoice, JVal.get?_obj, hdd, herr]

/-- Witness for C2's amended statement: the nested-shape payload
lacking `buyer` is silently defaulted, and a payload whose `data`
value is `None` propagates the membership test's `TypeError`. -/
theorem C2_amended_silent_default_witness :
    _map_to_invoice (.obj [("data", .obj [("seller", .obj [("name", .str "S")])])]) =
      .ok ⟨⟨"", "", ""⟩, ⟨"", "", ""⟩, [], ⟨0, 0, 0, 0⟩⟩ ∧
    _map_to_invoice (.obj [("data", .null)]) =
      .error "TypeError: argument is not iterable" :=
  ⟨(C2_amended_silent_default
      [("data", .obj [("seller", .obj [("name", .str "S")])])]).1 rfl rfl rfl rfl,
    (C2_amended_silent_default [("data", .null)]).2 .null
      "TypeError: argument is not iterable" rfl rfl⟩

theorem pollLoop_timeout (status : Nat → String)
    (hs : ∀ n, isTerminalStatus (status n) = false) :
    ∀ k p, p + k = 60 → pollLoop status (3 * p) p = .timedOut 60 180 := by
  intro k
  induction k with
  | zero =>
    intro p hp
    have hp60 : p = 60 := by omega
    subst hp60
    rw [pollLoop, if_neg (by norm_num)]
  | succ k ih =>
    intro p hp
    have h3 : 3 * p < 180 := by omega
    have hterm := hs p
    simp only [isTerminalStatus] at hterm
    obtain ⟨hd, hf⟩ := Bool.or_eq_false_iff.mp hterm
    rw [pollLoop, if_pos h3, hd, hf]
    simp only [Bool.false_eq_true, if_false]
    have h31 : 3 * p + 3 = 3 * (p + 1) := by ring
    rw [h31]
    exact ih (p + 1) (by omega)

/-- C6: the cloud-extraction polling loop always terminates.  If the
status oracle never yields a terminal status, the loop times out with
the `UpstreamError`, having issued exactly 60 polls (the 3-second
interval over the 180-second deadline) and waited 180 seconds; a
`failed` or `cancelled` status makes it fail immediately with the
job-failure `UpstreamError`. -/
theorem C6_poll_loop_bounded (status : Nat → String) :
    ((∀ n, isTerminalStatus (status n) = false) →
      llamaPollPhase status = .timedOut 60 180) ∧
    (isFailedStatus (status 0) = true → llamaPollPhase status = .jobFailed 1 0) := by
  constructor
  · intro hs
    have h := pollLoop_timeout status hs 60 0 (by omega)
    simpa [llamaPollPhase] using h
  · intro hf
    have hf2 := hf
    simp only [isFailedStatus, Bool.or_eq_true] at hf2
    have hd : isDoneStatus (status 0) = false := by
      rcases hf2 with h | h
      · rw [eq_of_beq h]
        rfl
      · rw [eq_of_beq h]
        rfl
    rw [llamaPollPhase, pollLoop, if_pos (by norm_num), hd, hf]
    simp

/-- Witness for C6: a status oracle stuck on `pending` times out at 60
polls and 180 seconds waited; one reporting `failed` on the first poll
fails right away. -/
theorem C6_poll_loop_bounded_witness :
    llamaPollPhase (fun _ => "pending") = .timedOut 60 180 ∧
    llamaPollPhase (fun _ => "failed") = .jobFailed 1 0 :=
  ⟨(C6_poll_loop_bounded (fun _ => "pending")).1 (fun _ => rfl),
    (C6_poll_loop_bounded (fun _ => "failed")).2 rfl⟩

theorem mapM_flatItems (items : List (String × Rat × Rat × Rat)) :
    List.mapM mapFlatLineItem (items.map (fun it =>
      JVal.obj [("rubro_raw", .str it.1), ("quantity", .num it.2.1),
        ("unit_price", .num it.2.2.1), ("subtotal", .num it.2.2.2)])) =
    Except.ok (items.map (fun it =>
      (⟨none, it.1, it.2.1, it.2.2.1, it.2.2.2⟩ : InvoiceLineItemWithTotals))) := by
  induction items with
  | nil => rfl
  | cons it rest ih =>
    rw [List.map_cons, List.mapM_cons, List.map_cons]
    rw [show mapFlatLineItem (JVal.obj [("rubro_raw", .str it.1), ("quantity", .num it.2.1),
      ("unit_price", .num it.2.2.1), ("subtotal", .num it.2.2.2)]) =
      Except.ok ⟨none, it.1, it.2.1, it.2.2.1, it.2.2.2⟩ from rfl, ih]
    rfl

/-- C7: mapping a flat-shape payload with every field of provider,
totals and every line item present yields an `Invoice` carrying exactly
the payload's scalar values. -/
theorem C7_flat_roundtrip (name rut address : String) (sub iva rate tot : Rat)
    (items : List (String × Rat × Rat × Rat)) :
    _map_to_invoice (.obj [
      ("provider", .obj [("name", .str name), ("rut", .str rut), ("address", .str address)]),
      ("line_items", .arr (items.map (fun it => .obj [("rubro_raw", .str it.1),
        ("quantity", .num it.2.1), ("unit_price", .num it.2.2.1),
        ("subtotal", .num it.2.2.2)]))),
      ("totals", .obj [("subtotal", .num sub), ("iva", .num iva), ("iva_rate", .num rate),
        ("total", .num tot)])]) =
      .ok ⟨⟨name, rut, address⟩, ⟨"", "", ""⟩,
        items.map (fun it => ⟨none, it.1, it.2.1, it.2.2.1, it.2.2.2⟩),
        ⟨sub, iva, rate, tot⟩⟩ := by
  show (List.mapM mapFlatLineItem (items.map (fun it => JVal.obj [("rubro_raw", .str it.1),
      ("quantity", .num it.2.1), ("unit_price", .num it.2.2.1),
      ("subtotal", .num it.2.2.2)]))).bind (fun itemsV =>
        Except.ok (⟨⟨name, rut, address⟩, ⟨"", "", ""⟩, itemsV,
          ⟨sub, iva, rate, tot⟩⟩ : Invoice)) = _
  rw [mapM_flatItems]
  rfl

/-- C8: the factory's explicit-name path uses the fixed table
{llama, openai, ocr, mock} (the spec calls the first two llm-cloud and
chat-completion) and raises the unknown-provider error for every other
name; `ocr` (and `mock`) construct successfully under any environment,
llama/openai whenever their credential is set; and
`get_available_providers` always lists `ocr` and `mock`. -/
theorem C8_factory_table (env : Env) :
    (∀ p, p ∉ ["llama", "openai", "ocr", "mock"] →
      _create_specific env p = .error ("Unknown provider: " ++ p)) ∧
    _create_specific env "ocr" = .ok .ocr ∧
    create_extractor env (some "ocr") true = .ok .ocr ∧
    _create_specific env "mock" = .ok .mock ∧
    (envTruthy env "LLAMA_API_KEY" = true → _create_specific env "llama" = .ok .llama) ∧
    (envTruthy env "OPENAI_API_KEY" = true → _create_specific env "openai" = .ok .openai) ∧
    "ocr" ∈ get_available_providers env ∧
    "mock" ∈ get_available_providers env := by
  refine ⟨?_, rfl, rfl, rfl, ?_, ?_, ?_, ?_⟩
  · intro p hp
    simp only [List.mem_cons, List.not_mem_nil, or_false, not_or] at hp
    obtain ⟨h1, h2, h3, h4⟩ := hp
    rw [_create_specific, if_neg h1, if_neg h2, if_neg h3, if_neg h4]
  · intro h
    simp [_create_specific, llamaInit, h]
  · intro h
    simp [_create_specific, openaiInit, h]
  · simp [get_available_providers]
  · simp [get_available_providers]

/-- Witness for C8 at concrete environments: an empty environment (no
credentials) and environments holding exactly one credential. -/
theorem C8_factory_table_witness :
    _create_specific (fun _ => none) "bogus" = .error ("Unknown provider: " ++ "bogus") ∧
    _create_specific (fun _ => none) "ocr" = .ok .ocr ∧
    _create_specific (fun k => if k = "LLAMA_API_KEY" then some "key" else none) "llama" =
      .ok .llama ∧
    _create_specific (fun k => if k = "OPENAI_API_KEY" then some "key" else none) "openai" =
      .ok .openai ∧
    "ocr" ∈ get_available_providers (fun _ => none) ∧
    "mock" ∈ get_available_providers (fun _ => none) :=
  ⟨(C8_factory_table (fun _ => none)).1 "bogus" (by decide),
    (C8_factory_table (fun _ => none)).2.1,
    (C8_factory_table (fun k => if k = "LLAMA_API_KEY" then some "key" else none)).2.2.2.2.1
      rfl,
    (C8_factory_table
        (fun k => if k = "OPENAI_API_KEY" then some "key" else none)).2.2.2.2.2.1 rfl,
    (C8_factory_table (fun _ => none)).2.2.2.2.2.2.1,
    (C8_factory_table (fun _ => none)).2.2.2.2.2.2.2⟩

/-- C9: the OCR-pattern extractor rejects an absent (`None`) and an
empty `ocr_text` with the `InputError` (`ValueError` in the source),
whatever its heuristic body would compute; no extraction result is
produced. -/
theorem C9_ocr_requires_text (body : String → JVal) :
    ocrExtract body none = .error "OCR extractor requires OCR text" ∧
    ocrExtract body (some "") = .error "OCR extractor requires OCR text" := ⟨rfl, rfl⟩

theorem normalizeLinesGo_length (nom : Option RubroNomenclator) (rubros : List String)
    (idx : Nat) : (normalizeLinesGo nom idx rubros).length = rubros.length := by
  induction rubros generalizing idx with
  | nil => rfl
  | cons a rest ih => simp [normalizeLinesGo, ih]

theorem normalizeLinesGo_get? (nom : Option RubroNomenclator) (rubros : List String) :
    ∀ (idx i : Nat) (r : RubroNormalizationResult) (raw : String),
      (normalizeLinesGo nom idx rubros)[i]? = some r →
      rubros[i]? = some raw →
      r.line_index = idx + i ∧ r.original_rubro = raw ∧
      (nom.bind (fun n => n.normalize raw) = none →
        r.normalized_code = none ∧ r.normalized_name = none) := by
  induction rubros with
  | nil =>
    intro idx i r raw hr _
    simp [normalizeLinesGo] at hr
  | cons a rest ih =>
    intro idx i r raw hr hraw
    cases i with
    | zero =>
      simp only [normalizeLinesGo, List.getElem?_cons_zero, Option.some.injEq] at hr hraw
      subst hr
      subst hraw
      refine ⟨by simp, rfl, ?_⟩
      intro hnone
      rw [hnone]
      exact ⟨rfl, rfl⟩
    | succ i =>
      simp only [normalizeLinesGo, List.getElem?_cons_succ] at hr hraw
      obtain ⟨h1, h2, h3⟩ := ih (idx + 1) i r raw hr hraw
      exact ⟨by omega, h2, h3⟩

/-- C10: `normalize_lines` is index- and length-preserving — the result
has the input's length, entry `i` carries `line_index = i` and the
original description, and an input with no case-insensitive exact name
match in the nomenclator gets `None` code and name, never an error. -/
theorem C10_normalize_lines_index_preserving (nom : Option RubroNomenclator)
    (rubros : List String) :
    (normalize_lines nom rubros).length = rubros.length ∧
    ∀ (i : Nat) (r : RubroNormalizationResult) (raw : String),
      (normalize_lines nom rubros)[i]? = some r → rubros[i]? = some raw →
      r.line_index = i ∧ r.original_rubro = raw ∧
      (nom.bind (fun n => n.normalize raw) = none →
        r.normalized_code = none ∧ r.normalized_name = none) := by
  constructor
  · exact normalizeLinesGo_length nom rubros 0
  · intro i r raw hr hraw
    obtain ⟨h1, h2, h3⟩ := normalizeLinesGo_get? nom rubros 0 i r raw hr hraw
    exact ⟨by omega, h2, h3⟩

/-- Witness for C10 on a two-line input against a one-entry
nomenclator: the unmatched second entry keeps position, original text
and null code/name. -/
theorem C10_normalize_lines_index_preserving_witness :
    (normalize_lines (some ⟨[("001", ⟨"001", "Consulting"⟩)],
      [("consulting", ⟨"001", "Consulting"⟩)]⟩) ["Consulting", "zzz"]).length = 2 ∧
    ((⟨1, "zzz", none, none⟩ : RubroNormalizationResult).line_index = 1 ∧
      (⟨1, "zzz", none, none⟩ : RubroNormalizationResult).original_rubro = "zzz" ∧
      (⟨1, "zzz", none, none⟩ : RubroNormalizationResult).normalized_code = none ∧
      (⟨1, "zzz", none, none⟩ : RubroNormalizationResult).normalized_name = none) := by
  constructor
  · exact (C10_normalize_lines_index_preserving _ _).1
  · have h := (C10_normalize_lines_index_preserving
      (some ⟨[("001", ⟨"001", "Consulting"⟩)], [("consulting", ⟨"001", "Consulting"⟩)]⟩)
      ["Consulting", "zzz"]).2 1 ⟨1, "zzz", none, none⟩ "zzz" (by decide) rfl
    exact ⟨h.1, h.2.1, (h.2.2 (by decide)).1, (h.2.2 (by decide)).2⟩

end InvoiceMVP
